import Mathlib

/-!
Shallow embedding of the submission/mutation lifecycle of the
`server-actions-resend` example (webscopeio/examples).

Source files embedded:
- `app/types.ts` — the request model and the zod validation schema;
- `app/actions.ts` — `claimUsername`, the asynchronous submission
  collaborator with ~30% injected random failure;
- `lib/utils.ts` — `useMutation`, the generic mutation runner;
- `app/request-form.tsx` — the `RequestForm` orchestrator: the mutate
  submit path, `handleSubmitWithTransition` and
  `handleSubmitWithOptimistic`, and the `useOptimistic` reducer.

Asynchrony is embedded by making the settlement outcome of the awaited
operation an explicit `Except` argument; the sampled value of
`Math.random()` is an explicit rational argument `r` with the code's
comparison `r < 0.3` kept verbatim as `r < 3/10`. JavaScript closure
semantics are kept: within a single render the handlers all close over
the same captured `requests` binding, so every list update is computed
from that captured list.
-/

namespace ServerActionsResend

/-- Status of a username request, from `app/types.ts`
(`"Pending" | "Error" | "Requested" | "Approved" | "Rejected"`). -/
inductive Status where
  | Pending
  | Error
  | Requested
  | Approved
  | Rejected
deriving DecidableEq, Repr

/-- `UsernameRequest` from `app/types.ts`: `{ username: string; status: Status }`. -/
structure UsernameRequest where
  username : String
  status : Status
deriving DecidableEq, Repr

/-- `UsernameRequestForm` from `app/types.ts`: `{ username: string }`. -/
structure UsernameRequestForm where
  username : String
deriving DecidableEq, Repr

/-- The zod schema `usernameRequestForm = z.object({ username: z.string().min(3) })`
from `app/types.ts`: parsing succeeds exactly when the username has length ≥ 3. -/
def usernameRequestForm (raw : String) : Option UsernameRequestForm :=
  if 3 ≤ raw.length then some ⟨raw⟩ else none

/-- A JavaScript `Error` object, reduced to its `message` field (the only
field the embedded code reads). -/
structure JsError where
  message : String
deriving DecidableEq, Repr

/-- A thrown JavaScript value: either an `Error` instance or some
non-`Error` value (identified only by a rendering of it). -/
inductive Thrown where
  | jsErr (e : JsError)
  | nonError (rendering : String)
deriving DecidableEq, Repr

/-- The normalization `error instanceof Error ? error : new Error("Unknown error")`
performed in the catch branch of `mutate` in `lib/utils.ts`. -/
def normalizeThrown : Thrown → JsError
  | .jsErr e => e
  | .nonError _ => ⟨"Unknown error"⟩

/-- `claimUsername` from `app/actions.ts`: after the simulated delay, if
`Math.random() < 0.3` it throws `Error("Operation failed")`, otherwise it
returns the input `form` unchanged. `r` is the sampled random value. -/
def claimUsername (r : ℚ) (form : UsernameRequestForm) :
    Except Thrown UsernameRequestForm :=
  if r < 3/10 then .error (.jsErr ⟨"Operation failed"⟩) else .ok form

/-- Which callback `mutate` (from `useMutation` in `lib/utils.ts`) invokes at
settlement, with its arguments. `data` is `Option`al because `mutationFn`
has result type `Promise<TData | void>`. -/
inductive MCallback (TData TVars : Type) where
  | onSuccess (data : Option TData) (vars : TVars)
  | onError (e : JsError) (vars : TVars)
deriving DecidableEq, Repr

/-- Observable result of one completed `mutate` run: the final values of the
two state flags, and the callback invocation it performed. -/
structure MutateResult (TData TVars : Type) where
  isPending : Bool
  isError : Bool
  call : MCallback TData TVars
deriving DecidableEq, Repr

/-- The `mutate` function of `useMutation` in `lib/utils.ts`, summarized by
its settlement behavior: on resolution it ends with both flags false and
calls `onSuccess data vars`; on rejection it ends with
`isPending = false`, `isError = true` and calls
`onError (normalizeThrown t) vars`. -/
def mutateRun {TData TVars : Type}
    (outcome : Except Thrown (Option TData)) (vars : TVars) :
    MutateResult TData TVars :=
  match outcome with
  | .ok data => ⟨false, false, .onSuccess data vars⟩
  | .error t => ⟨false, true, .onError (normalizeThrown t) vars⟩

/-- One flag-update or control event inside a single `mutate` run. -/
inductive MEvent where
  | setPending (b : Bool)
  | setError (b : Bool)
  | awaitOp
  | callOnSuccess
  | callOnError
deriving DecidableEq, Repr

/-- The ordered trace of events of one `mutate` run from `lib/utils.ts`:
`setIsPending(true); setIsError(false);` then the awaited `mutationFn`;
then, in the try branch, `setIsError(false); onSuccess(...)`, or in the
catch branch `setIsError(true); onError(...)`; and in the finally block
`setIsPending(false)`. -/
def mutateEvents (outcome : Except Thrown (Option UsernameRequestForm)) :
    List MEvent :=
  [.setPending true, .setError false, .awaitOp] ++
    (match outcome with
      | .ok _ => [.setError false, .callOnSuccess]
      | .error _ => [.setError true, .callOnError]) ++
    [.setPending false]

/-- The writes to the `isPending` flag occurring in a trace, in order. -/
def pendingWrites (events : List MEvent) : List Bool :=
  events.filterMap fun e =>
    match e with
    | .setPending b => some b
    | _ => none

/-- A fire-and-forget toast notification emitted by the orchestrator. -/
inductive Toast where
  | success (message : String)
  | error (message : String)
deriving DecidableEq, Repr

/-- The `onSuccess` handler passed to `useMutation` in
`app/request-form.tsx`: `if (data) { setRequests([...requests, {...data,
status: "Requested"}]); toast.success(...) }`. `requests` is the list
captured by the render closure; an `undefined` (`none`) resolution is
falsy, so it appends nothing and fires no toast. -/
def onSuccessHandler (requests : List UsernameRequest)
    (data : Option UsernameRequestForm) :
    List UsernameRequest × Option Toast :=
  match data with
  | some d =>
      (requests ++ [⟨d.username, .Requested⟩],
        some (.success ("You have successfully submitted a claim for: @" ++ d.username)))
  | none => (requests, none)

/-- The `onError` handler passed to `useMutation` in `app/request-form.tsx`:
`setRequests([...requests, { username: vars.username, status: "Error" }]);
toast.error(error.message)`. -/
def onErrorHandler (requests : List UsernameRequest) (e : JsError)
    (vars : UsernameRequestForm) :
    List UsernameRequest × Option Toast :=
  (requests ++ [⟨vars.username, .Error⟩], some (.error e.message))

/-- The settled-state effect of one `mutate(values)` call in
`app/request-form.tsx`: dispatch on the callback chosen by `mutateRun` and
run the corresponding handler against the render-captured `requests`. -/
def settleMutate (requests : List UsernameRequest)
    (values : UsernameRequestForm)
    (outcome : Except Thrown (Option UsernameRequestForm)) :
    List UsernameRequest × Option Toast :=
  match (mutateRun outcome values).call with
  | .onSuccess data _ => onSuccessHandler requests data
  | .onError e vars => onErrorHandler requests e vars

/-- Observable trace of one full form-action submission in
`app/request-form.tsx`: the list after the synchronous Pending append, the
list after settlement, the settlement toast, and whether the asynchronous
submission collaborator was invoked at all. -/
structure SubmitTrace where
  pendingList : List UsernameRequest
  settledList : List UsernameRequest
  settleToast : Option Toast
  collaboratorCalled : Bool
deriving DecidableEq, Repr

/-- The form-action submit path of `app/request-form.tsx`:
`form.handleSubmit` first runs the zod resolver; on invalid input the
callback never runs (no list update, no collaborator call). On valid input
it runs `setRequests([...requests, {...values, status: "Pending"}]);
mutate(values)` with the collaborator `claimUsername` sampling `r`; the
settlement handlers close over the render-captured `requests`. -/
def submitMutatePath (requests : List UsernameRequest) (raw : String)
    (r : ℚ) : SubmitTrace :=
  match usernameRequestForm raw with
  | none => ⟨requests, requests, none, false⟩
  | some values =>
      let settled := settleMutate requests values
        ((claimUsername r values).map Option.some)
      ⟨requests ++ [⟨values.username, .Pending⟩], settled.1, settled.2, true⟩

/-- `handleSubmitWithTransition` from `app/request-form.tsx`. It first runs
`setRequests([...requests, {...values, status: "Pending"}])`, then the
`toast.promise` callbacks settle: both callbacks close over the same
render-captured `requests` binding, so the settled update is computed from
`requests`, not from the Pending-extended list. Returns the list after the
synchronous update and the list after the settlement update. -/
def handleSubmitWithTransition (requests : List UsernameRequest)
    (values : UsernameRequestForm)
    (outcome : Except Thrown UsernameRequestForm) :
    List UsernameRequest × List UsernameRequest :=
  (requests ++ [⟨values.username, .Pending⟩],
    match outcome with
    | .ok d => requests ++ [⟨d.username, .Requested⟩]
    | .error _ => requests ++ [⟨values.username, .Error⟩])

/-- The `useOptimistic` reducer of `app/request-form.tsx`:
`(currentState, optimisticValue) => [...currentState, { ...optimisticValue,
status: "Pending" }]`. -/
def addOptimisticRequest (currentState : List UsernameRequest)
    (optimisticValue : UsernameRequestForm) : List UsernameRequest :=
  currentState ++ [⟨optimisticValue.username, .Pending⟩]

/-- Modelled from the spec: the `React.useOptimistic` projection semantics
(React library code, not part of this repository). While the triggering
transition is pending the display list is the reducer applied to the base
list; once the transition completes the optimistic state reverts to the
(possibly updated) base list — "the transient optimistic entry is dropped
since it is not part of baseList". -/
def optimisticProjection (baseList : List UsernameRequest)
    (pendingValue : Option UsernameRequestForm) : List UsernameRequest :=
  match pendingValue with
  | some v => addOptimisticRequest baseList v
  | none => baseList

/-- `handleSubmitWithOptimistic` from `app/request-form.tsx`: inside the
transition it calls `addOptimisticRequest(values)` and starts
`toast.promise`; the settlement callbacks close over the render-captured
`requests` and set the authoritative list to `requests ++ [terminal]`.
Returns the display list while pending and the display list after the
transition completes (the optimistic projection over the settled base). -/
def handleSubmitWithOptimistic (requests : List UsernameRequest)
    (values : UsernameRequestForm)
    (outcome : Except Thrown UsernameRequestForm) :
    List UsernameRequest × List UsernameRequest :=
  let settledBase :=
    match outcome with
    | .ok d => requests ++ [⟨d.username, .Requested⟩]
    | .error _ => requests ++ [⟨values.username, .Error⟩]
  (optimisticProjection requests (some values),
    optimisticProjection settledBase none)

/-- Claim C3: whenever the mutation runner's operation rejects, the run ends
with `isPending = false` and `isError = true`, and `onError` receives the
thrown value itself when it is an `Error` and otherwise a fresh error with
message "Unknown error", together with the original variables. -/
theorem mutation_runner_rejection_normalizes (t : Thrown)
    (vars : UsernameRequestForm) :
    (mutateRun (Except.error t : Except Thrown (Option UsernameRequestForm)) vars).isPending = false ∧
    (mutateRun (Except.error t : Except Thrown (Option UsernameRequestForm)) vars).isError = true ∧
    (mutateRun (Except.error t : Except Thrown (Option UsernameRequestForm)) vars).call =
      .onError (normalizeThrown t) vars ∧
    (∀ e, normalizeThrown (.jsErr e) = e) ∧
    (∀ s, normalizeThrown (.nonError s) = ⟨"Unknown error"⟩) :=
  ⟨rfl, rfl, rfl, fun _ => rfl, fun _ => rfl⟩

/-- Claim C8: in the event trace of a single `mutate` run, `isPending` is
written `true` as the very first event, written `false` as the very last
event, and these are the only two writes to it, in both the success and the
failure path. -/
theorem mutate_pending_flag_trace
    (outcome : Except Thrown (Option UsernameRequestForm)) :
    (mutateEvents outcome).head? = some (.setPending true) ∧
    (mutateEvents outcome).getLast? = some (.setPending false) ∧
    pendingWrites (mutateEvents outcome) = [true, false] := by
  cases outcome <;> exact ⟨rfl, rfl, rfl⟩

/-- Claim C4: the optimistic reducer returns exactly
`baseList ++ [pendingItem with status Pending]`, and the base list is left
unchanged (it survives intact as the initial segment of the result). -/
theorem optimistic_reducer_appends_pending (baseList : List UsernameRequest)
    (pendingItem : UsernameRequestForm) :
    addOptimisticRequest baseList pendingItem =
      baseList ++ [⟨pendingItem.username, .Pending⟩] ∧
    (addOptimisticRequest baseList pendingItem).take baseList.length = baseList := by
  refine ⟨rfl, ?_⟩
  simp [addOptimisticRequest]

/-- Claim C10: when the mutation function resolves with no value
(`undefined`), the `onSuccess` handler appends no entry and fires no success
toast, because the append and the toast are guarded on the resolved data
being truthy. -/
theorem void_resolution_appends_nothing (requests : List UsernameRequest)
    (values : UsernameRequestForm) :
    onSuccessHandler requests none = (requests, none) ∧
    settleMutate requests values (.ok none) = (requests, none) :=
  ⟨rfl, rfl⟩

/-- Claim C9: whenever `claimUsername` resolves (sampled random value at
least 0.3), it resolves with exactly the input form, unchanged. -/
theorem claim_username_success_identity (r : ℚ) (form : UsernameRequestForm)
    (h : 3/10 ≤ r) : claimUsername r form = .ok form := by
  simp [claimUsername, not_lt.mpr h]

/-- Witness for the C9 theorem at the concrete sample 1/2 and form "alice". -/
theorem claim_username_success_identity_witness :
    claimUsername (1/2) ⟨"alice"⟩ = .ok ⟨"alice"⟩ :=
  claim_username_success_identity (1/2) ⟨"alice"⟩ (by norm_num)

/-- Claim C1: after the submission collaborator settles, exactly one of the
success branch (appending an entry with status Requested plus a success
toast) and the error branch (appending an entry with status Error plus an
error toast) runs — never both, never neither. -/
theorem submission_settles_exactly_one_branch
    (requests : List UsernameRequest) (values : UsernameRequestForm) (r : ℚ) :
    (settleMutate requests values ((claimUsername r values).map Option.some) =
        (requests ++ [⟨values.username, .Requested⟩],
          some (.success ("You have successfully submitted a claim for: @" ++ values.username))) ∧
      settleMutate requests values ((claimUsername r values).map Option.some) ≠
        (requests ++ [⟨values.username, .Error⟩], some (.error "Operation failed"))) ∨
    (settleMutate requests values ((claimUsername r values).map Option.some) =
        (requests ++ [⟨values.username, .Error⟩], some (.error "Operation failed")) ∧
      settleMutate requests values ((claimUsername r values).map Option.some) ≠
        (requests ++ [⟨values.username, .Requested⟩],
          some (.success ("You have successfully submitted a claim for: @" ++ values.username)))) := by
  by_cases h : r < 3/10
  · right
    have heq : settleMutate requests values
        ((claimUsername r values).map Option.some) =
        (requests ++ [⟨values.username, .Error⟩], some (.error "Operation failed")) := by
      simp [settleMutate, claimUsername, h, mutateRun, onErrorHandler,
        normalizeThrown, Except.map]
    refine ⟨heq, ?_⟩
    rw [heq]
    simp
  · left
    have heq : settleMutate requests values
        ((claimUsername r values).map Option.some) =
        (requests ++ [⟨values.username, .Requested⟩],
          some (.success ("You have successfully submitted a claim for: @" ++ values.username))) := by
      simp [settleMutate, claimUsername, h, mutateRun, onSuccessHandler,
        Except.map]
    refine ⟨heq, ?_⟩
    rw [heq]
    simp

/-- Counterexample to claim C2: for the submission "bob" handled by
`handleSubmitWithTransition`, the Pending entry appended at submit time is
absent from the list produced by the settlement update of the same
submission — a previously present entry was removed/replaced. -/
theorem transition_pending_entry_removed_at_settlement :
    (⟨"bob", Status.Pending⟩ : UsernameRequest) ∈
      (handleSubmitWithTransition [] ⟨"bob"⟩ (.ok ⟨"bob"⟩)).1 ∧
    (⟨"bob", Status.Pending⟩ : UsernameRequest) ∉
      (handleSubmitWithTransition [] ⟨"bob"⟩ (.ok ⟨"bob"⟩)).2 := by
  decide

/-- Amended claim C2: every update of `handleSubmitWithTransition` appends
exactly one entry to the base list captured at render time, so the captured
entries are never removed; but the settled update is computed from that
same captured base, so the Pending entry appended at submit time is
superseded (dropped) rather than retained. -/
theorem transition_updates_append_to_captured_base
    (requests : List UsernameRequest) (values : UsernameRequestForm)
    (outcome : Except Thrown UsernameRequestForm) :
    (handleSubmitWithTransition requests values outcome).1 =
      requests ++ [⟨values.username, .Pending⟩] ∧
    (∃ e : UsernameRequest,
      (handleSubmitWithTransition requests values outcome).2 =
        requests ++ [e] ∧ e.status ≠ .Pending) ∧
    (handleSubmitWithTransition requests values outcome).1.take
      requests.length = requests ∧
    (handleSubmitWithTransition requests values outcome).2.take
      requests.length = requests := by
  cases outcome with
  | ok d =>
      exact ⟨rfl, ⟨⟨d.username, .Requested⟩, rfl, by simp⟩,
        by simp [handleSubmitWithTransition], by simp [handleSubmitWithTransition]⟩
  | error t =>
      exact ⟨rfl, ⟨⟨values.username, .Error⟩, rfl, by simp⟩,
        by simp [handleSubmitWithTransition], by simp [handleSubmitWithTransition]⟩

/-- Claim C5: for a base list of length N and one optimistic submission, the
display list has length N+1 while pending and length N+1 after settlement
(the base list plus a single terminal entry, the optimistic Pending entry
having been dropped); it never reaches N+2. -/
theorem optimistic_display_length_invariant
    (requests : List UsernameRequest) (values : UsernameRequestForm)
    (outcome : Except Thrown UsernameRequestForm) :
    (handleSubmitWithOptimistic requests values outcome).1.length =
      requests.length + 1 ∧
    (handleSubmitWithOptimistic requests values outcome).2.length =
      requests.length + 1 ∧
    ∃ e : UsernameRequest,
      (handleSubmitWithOptimistic requests values outcome).2 =
        requests ++ [e] ∧ e.status ≠ .Pending := by
  cases outcome with
  | ok d =>
      refine ⟨?_, ?_, ⟨⟨d.username, .Requested⟩, rfl, by simp⟩⟩ <;>
        simp [handleSubmitWithOptimistic, optimisticProjection, addOptimisticRequest]
  | error t =>
      refine ⟨?_, ?_, ⟨⟨values.username, .Error⟩, rfl, by simp⟩⟩ <;>
        simp [handleSubmitWithOptimistic, optimisticProjection, addOptimisticRequest]

/-- Claim C6: `claimUsername` rejects exactly when the sampled random value
is below 0.3, and then with an error whose message is "Operation failed";
when a submission for "bob" settles through such a rejection, the final
list gains the entry `{username := "bob", status := Error}` and the error
toast carries the message "Operation failed". -/
theorem claim_username_rejection_behavior (r : ℚ)
    (form : UsernameRequestForm) (requests : List UsernameRequest) :
    ((∃ t, claimUsername r form = .error t) ↔ r < 3/10) ∧
    (r < 3/10 → claimUsername r form = .error (.jsErr ⟨"Operation failed"⟩)) ∧
    (r < 3/10 →
      settleMutate requests ⟨"bob"⟩ ((claimUsername r ⟨"bob"⟩).map Option.some) =
        (requests ++ [⟨"bob", .Error⟩], some (.error "Operation failed"))) := by
  refine ⟨⟨?_, ?_⟩, ?_, ?_⟩
  · rintro ⟨t, ht⟩
    by_contra h
    simp [claimUsername, h] at ht
  · intro h
    exact ⟨.jsErr ⟨"Operation failed"⟩, by simp [claimUsername, h]⟩
  · intro h
    simp [claimUsername, h]
  · intro h
    simp [settleMutate, claimUsername, h, mutateRun, onErrorHandler,
      normalizeThrown, Except.map]

/-- Witness for the C6 theorem at the concrete sample 1/5 (below 0.3) and
the submission "bob" against an empty base list. -/
theorem claim_username_rejection_behavior_witness :
    settleMutate [] ⟨"bob"⟩ ((claimUsername (1/5) ⟨"bob"⟩).map Option.some) =
      ([⟨"bob", Status.Error⟩], some (.error "Operation failed")) :=
  (claim_username_rejection_behavior (1/5) ⟨"bob"⟩ []).2.2 (by norm_num)

/-- Claim C7: an identifier is valid exactly when its length is at least 3;
submitting the invalid identifier "ab" (length 2) leaves the list
unchanged (no Pending entry), fires no toast, and never calls the
submission collaborator. -/
theorem short_username_blocks_submission (raw : String)
    (requests : List UsernameRequest) (r : ℚ) :
    ((usernameRequestForm raw).isSome ↔ 3 ≤ raw.length) ∧
    submitMutatePath requests "ab" r = ⟨requests, requests, none, false⟩ := by
  constructor
  · by_cases h : 3 ≤ raw.length
    · simp [usernameRequestForm, h]
    · simp [usernameRequestForm, h]
  · have h : usernameRequestForm "ab" = none := by decide
    simp [submitMutatePath, h]

end ServerActionsResend
